import Mathlib

/-!
Verification model of `src/main/c/org_jetlang_epoll_EPoll.cpp`, a JNI binding
around epoll, eventfd and recvmmsg.  Each `Java_org_jetlang_epoll_EPoll_*`
entry point is embedded as a Lean function over an explicit model of the
`struct epoll_state` block and of the kernel objects it refers to (the epoll
interest set, the eventfd counter, datagram sockets).  Machine handles and
addresses are modelled abstractly: heap allocations by the inductive `Alloc`
(the allocation's identity doubles as its address), file descriptors by `Int`.
-/

/- ===== Constants from <sys/epoll.h>, <sys/eventfd.h> and <errno.h> ===== -/

def EPOLL_CTL_ADD : Nat := 1
def EPOLL_CTL_DEL : Nat := 2
def EPOLL_CTL_MOD : Nat := 3
def EPOLLIN : Nat := 1
def EPOLLERR : Nat := 8
def EPOLLHUP : Nat := 16
def ENOENT : Nat := 2
def EEXIST : Nat := 17
def EBADF : Nat := 9
def EAGAIN : Nat := 11
def EINVAL : Nat := 22

/-- Maximal value the kernel allows an eventfd counter to hold (2^64 - 2). -/
def EFD_CTR_MAX : Nat := 2 ^ 64 - 2

/- ===== Heap allocations made by the binding ===== -/

/-- Identity of each heap allocation the C code makes with `malloc`.  The
allocations of `Java_org_jetlang_epoll_EPoll_init` are: the `epoll_state`
block, the `epoll_event` array `state->events`, the `mmsghdr` array
`state->udp_rcv`, and, for every slot `i < maxDatagramsPerRead`, one receive
buffer of `readBufferBytes` bytes and one `iovec` describing it.  The identity
of an allocation also stands for its address. -/
inductive Alloc where
  | stateBlock
  | eventsArray
  | udpRcvArray
  | slotBuffer (i : Nat)
  | slotIov (i : Nat)
deriving DecidableEq, Inhabited

/- ===== Data model: struct epoll_state and the kernel objects ===== -/

/-- `struct epoll_event`: an events bitmask and the `data.u32` tag (the only
member of the `data` union this binding ever uses). -/
structure epoll_event where
  events : Nat
  u32 : Nat
deriving DecidableEq, Inhabited

/-- One entry of the `state->udp_rcv` pool: a `struct mmsghdr` whose
`msg_hdr.msg_iov` points at a singleton `iovec` (allocation `msg_iov`) whose
`iov_base` points at the slot's receive buffer and whose `iov_len` is the
buffer capacity; `msg_len` is the byte count the last `recvmmsg` delivered
into this slot.  `msg_iovlen` is always 1 and therefore not modelled. -/
structure mmsghdr where
  msg_iov : Alloc
  iov_base : Alloc
  iov_len : Nat
  msg_len : Nat
deriving DecidableEq, Inhabited

/-- `struct epoll_state`, field for field.  `events` holds the contents of the
`maxSelectedEvents`-entry output array, `udp_rcv` the contents of the
`maxDatagramsPerRead`-entry `mmsghdr` pool. -/
structure epoll_state where
  fd : Int
  efd : Int
  events : List epoll_event
  max_events : Nat
  efd_event : epoll_event
  udp_rcv_len : Nat
  udp_rcv : List mmsghdr
deriving DecidableEq

/- ===== epoll_ctl(2) ===== -/

/-- Outcome of `epoll_ctl(2)`: the syscall's return value, `errno` when it is
-1, and the interest set afterwards. -/
structure epoll_ctl_result where
  res : Int
  errno : Nat
  interest : List (Int × epoll_event)
deriving DecidableEq

/-- `epoll_ctl(2)` on an interest set (list of watched descriptor / event
pairs): EBADF for a negative (invalid) descriptor; ADD fails with EEXIST on a
descriptor already present, MOD and DEL fail with ENOENT on a descriptor not
present; any other op is EINVAL. -/
def epoll_ctl (interest : List (Int × epoll_event)) (op : Nat) (fd : Int)
    (ev : epoll_event) : epoll_ctl_result :=
  if fd < 0 then ⟨-1, EBADF, interest⟩
  else if op = EPOLL_CTL_ADD then
    if interest.any (fun p => p.1 == fd) then ⟨-1, EEXIST, interest⟩
    else ⟨0, 0, interest ++ [(fd, ev)]⟩
  else if op = EPOLL_CTL_MOD then
    if interest.any (fun p => p.1 == fd) then
      ⟨0, 0, interest.map (fun p => if p.1 == fd then (fd, ev) else p)⟩
    else ⟨-1, ENOENT, interest⟩
  else if op = EPOLL_CTL_DEL then
    if interest.any (fun p => p.1 == fd) then
      ⟨0, 0, interest.filter (fun p => p.1 != fd)⟩
    else ⟨-1, ENOENT, interest⟩
  else ⟨-1, EINVAL, interest⟩

/- ===== init ===== -/

/-- The event record `init` registers for the eventfd:
`events = EPOLLHUP | EPOLLERR | EPOLLIN`, `data.u32 = 0` (the reserved tag). -/
def efdEvent : epoll_event := ⟨EPOLLHUP ||| EPOLLERR ||| EPOLLIN, 0⟩

/-- The `struct epoll_state` built by `Java_org_jetlang_epoll_EPoll_init` when
every acquisition succeeds: `fd` and `efd` hold the kernel-returned handles
(parameters here); `events` is the freshly malloc'd array of
`maxSelectedEvents` records (malloc contents are indeterminate; the claims
never read them before they are first overwritten, so they are modelled as
zeroed); `udp_rcv` is memset to zero and then each slot `i` is pointed at its
own `iovec` and buffer with `iov_len = readBufferBytes`. -/
def initState (maxSelectedEvents maxDatagramsPerRead readBufferBytes : Nat)
    (epollFd efdFd : Int) : epoll_state :=
  { fd := epollFd
  , efd := efdFd
  , events := List.replicate maxSelectedEvents ⟨0, 0⟩
  , max_events := maxSelectedEvents
  , efd_event := efdEvent
  , udp_rcv_len := maxDatagramsPerRead
  , udp_rcv := (List.range maxDatagramsPerRead).map (fun i =>
      { msg_iov := Alloc.slotIov i
      , iov_base := Alloc.slotBuffer i
      , iov_len := readBufferBytes
      , msg_len := 0 }) }

/-- The heap allocations `init` makes, in source order: the state block, the
events array, the `mmsghdr` array, then per slot one buffer and one `iovec`. -/
def initAllocs (maxDatagramsPerRead : Nat) : List Alloc :=
  [Alloc.stateBlock, Alloc.eventsArray, Alloc.udpRcvArray]
    ++ (List.range maxDatagramsPerRead).flatMap
        (fun i => [Alloc.slotBuffer i, Alloc.slotIov i])

/- ===== freeNativeMemory ===== -/

/-- The handles `Java_org_jetlang_epoll_EPoll_freeNativeMemory` closes, in
order: `close(state->fd)` then `close(state->efd)`. -/
def freeNativeMemoryCloses (st : epoll_state) : List Int := [st.fd, st.efd]

/-- The heap blocks `Java_org_jetlang_epoll_EPoll_freeNativeMemory` frees, in
order: `state->events`; `state->udp_rcv->msg_hdr.msg_iov->iov_base` and
`state->udp_rcv->msg_hdr.msg_iov` — note `state->udp_rcv->` dereferences only
`udp_rcv[0]`, so only the FIRST slot's buffer and iovec are freed; then
`state->udp_rcv` and `state` themselves.  (With an empty pool the slot
dereference would read outside the zero-length array; no slot block is freed
in that case.) -/
def freeNativeMemoryFrees (st : epoll_state) : List Alloc :=
  [Alloc.eventsArray]
    ++ (match st.udp_rcv with
        | [] => []
        | m :: _ => [m.iov_base, m.msg_iov])
    ++ [Alloc.udpRcvArray, Alloc.stateBlock]

/- ===== eventfd(2) ===== -/

/-- `write(2)` of the 8-byte value `d` to a nonblocking eventfd whose counter
is `ctr`: EINVAL for `d = 2^64 - 1`; EAGAIN (counter unchanged) when the sum
would exceed the counter maximum; otherwise the counter is increased by `d`
and 8 bytes are reported written.  In particular a write of `d = 0` succeeds
and leaves the counter unchanged. -/
def eventfdWrite (ctr d : Nat) : Int × Nat :=
  if d = 2 ^ 64 - 1 then (-1, ctr)
  else if ctr + d ≤ EFD_CTR_MAX then (8, ctr + d)
  else (-1, ctr)

/-- `read(2)` of 8 bytes from a nonblocking, non-semaphore eventfd: EAGAIN
when the counter is zero; otherwise the whole counter is returned and reset
to zero. -/
def eventfdRead (ctr : Nat) : Int × Nat :=
  if ctr = 0 then (-1, ctr) else (8, 0)

/-- An eventfd is read-ready (EPOLLIN, level-triggered) iff its counter is
nonzero. -/
def efdReadable (ctr : Nat) : Bool := ctr != 0

/-- `Java_org_jetlang_epoll_EPoll_interrupt`: declares `uint64_t d` WITHOUT
initialising it and executes `write(state->efd, &d, sizeof(uint64_t))`.  The
value written is therefore indeterminate and is a parameter `d` here; the
result of `write` is ignored.  Returns the eventfd counter afterwards. -/
def interrupt (ctr d : Nat) : Nat := (eventfdWrite ctr d).2

/-- `Java_org_jetlang_epoll_EPoll_clearInterrupt`: executes
`read(state->efd, &d, sizeof(uint64_t))` into a local, ignoring the result; a
successful read returns and zeroes the whole counter (non-semaphore eventfd).
Returns the eventfd counter afterwards. -/
def clearInterrupt (ctr : Nat) : Nat := (eventfdRead ctr).2

/- ===== The state plus its kernel objects ===== -/

/-- The `epoll_state` block together with the kernel objects its two handles
refer to: the interest set of the epoll instance `st.fd`, the counter of the
eventfd `st.efd`, and the list of user descriptors that are currently
readable (readiness of the eventfd itself is decided by its counter, never by
this list). -/
structure world where
  st : epoll_state
  interest : List (Int × epoll_event)
  efdCounter : Nat
  readyFds : List Int
deriving DecidableEq

/-- The state and kernel objects right after a fully successful
`Java_org_jetlang_epoll_EPoll_init`: the fresh eventfd has counter 0 and is
the only interest-set entry, added by `epoll_ctl(epoll_fd, EPOLL_CTL_ADD,
state->efd, &state->efd_event)` with the reserved tag 0. -/
def initWorld (maxSelectedEvents maxDatagramsPerRead readBufferBytes : Nat)
    (epollFd efdFd : Int) (ready : List Int) : world :=
  { st := initState maxSelectedEvents maxDatagramsPerRead readBufferBytes
            epollFd efdFd
  , interest := (epoll_ctl [] EPOLL_CTL_ADD efdFd efdEvent).interest
  , efdCounter := 0
  , readyFds := ready }

/-- Readiness of descriptor `fd` as the epoll instance of `w` sees it. -/
def fdReady (w : world) (fd : Int) : Bool :=
  if fd == w.st.efd then efdReadable w.efdCounter else w.readyFds.contains fd

/- ===== epoll_wait(2) and select ===== -/

/-- The interest-set entries that are currently ready, in set order; epoll
reports each with its registered data (only readability is modelled, so the
reported record is the registered one). -/
def readyEvents (interest : List (Int × epoll_event)) (ready : Int → Bool) :
    List epoll_event :=
  (interest.filter (fun p => ready p.1)).map (fun p => p.2)

/-- `epoll_wait(2)`: fails with EINVAL when `maxevents ≤ 0`; with no ready
entry it returns 0 once a timeout `≥ 0` elapses and blocks forever (`none`)
on a negative timeout; otherwise it writes up to `maxevents` ready records
into the output array from index 0, leaving the rest of the array as it was,
and returns the number written.  The result is the return value paired with
the output-array contents afterwards (`none` = never returns). -/
def epoll_wait (interest : List (Int × epoll_event)) (ready : Int → Bool)
    (oldBuf : List epoll_event) (maxevents : Nat) (timeout : Int) :
    Option (Int × List epoll_event) :=
  if maxevents = 0 then some (-1, oldBuf)
  else
    let rdy := readyEvents interest ready
    if rdy.isEmpty then
      if timeout < 0 then none else some (0, oldBuf)
    else
      let written := rdy.take maxevents
      some ((written.length : Int), written ++ oldBuf.drop written.length)

/-- `Java_org_jetlang_epoll_EPoll_select`: returns
`epoll_wait(state->fd, state->events, state->max_events, timeout)` verbatim. -/
def select (w : world) (timeout : Int) : Option (Int × List epoll_event) :=
  epoll_wait w.interest (fdReady w) w.st.events w.st.max_events timeout

/- ===== ctl ===== -/

/-- What a call to `Java_org_jetlang_epoll_EPoll_ctl` produces: the value
returned to Java (`ret`), the `epoll_ctl` return value and errno — both
computed by the kernel but DISCARDED by the C code — and the world
afterwards. -/
structure ctl_result where
  ret : Int
  os_result : Int
  os_errno : Nat
  w : world
deriving DecidableEq

/-- `Java_org_jetlang_epoll_EPoll_ctl`: mallocs a fresh `epoll_event` (its
address is the parameter `addr`), fills `event->events = eventTypes` and
`event->data.u32 = idx`, calls `epoll_ctl(state->fd, op, fd, event)`, and
returns `(jlong) event` — the allocation's address — whatever the outcome;
the `epoll_ctl` result and errno are dropped on the floor. -/
def ctl (w : world) (op : Nat) (eventTypes : Nat) (fd : Int) (idx : Nat)
    (addr : Int) : ctl_result :=
  let r := epoll_ctl w.interest op fd ⟨eventTypes, idx⟩
  { ret := addr
  , os_result := r.res
  , os_errno := r.errno
  , w := { w with interest := r.interest } }

/- ===== init under failure injection (resource accounting) ===== -/

/-- A resource `init` acquires: the epoll handle, the eventfd handle, or a
heap allocation. -/
inductive Res where
  | epollFd
  | eventFd
  | heap (a : Alloc)
deriving DecidableEq

/-- Environment deciding which underlying acquisitions fail during one run of
`init`: the values `epoll_create1` and `eventfd` return (negative = failure)
and which `malloc` calls return NULL. -/
structure init_env where
  epoll_create1_res : Int
  eventfd_res : Int
  malloc_ok : Alloc → Bool

/-- Whether the environment lets an acquisition succeed. -/
def init_env.ok (env : init_env) : Res → Bool
  | Res.epollFd => decide (0 ≤ env.epoll_create1_res)
  | Res.eventFd => decide (0 ≤ env.eventfd_res)
  | Res.heap a => env.malloc_ok a

/-- The acquisitions `Java_org_jetlang_epoll_EPoll_init` attempts, in source
order: `epoll_create1`, `malloc(state)`, `malloc(events)`, `eventfd`,
`malloc(udp_rcv)`, then per slot `malloc(buffer)` and `malloc(iovec)`.  The
body tests no return value, so the same sequence is attempted whatever
fails.  (The `epoll_ctl` registration of the eventfd sits between `eventfd`
and `malloc(udp_rcv)`; it acquires no resource and is not an acquisition.) -/
def initAttempts (maxDatagramsPerRead : Nat) : List Res :=
  [Res.epollFd, Res.heap Alloc.stateBlock, Res.heap Alloc.eventsArray,
   Res.eventFd, Res.heap Alloc.udpRcvArray]
    ++ (List.range maxDatagramsPerRead).flatMap
        (fun i => [Res.heap (Alloc.slotBuffer i), Res.heap (Alloc.slotIov i)])

/-- Resource accounting of one run of `init` under `env`.  The C body is
straight-line code: every acquisition is attempted unconditionally, no
`free`/`close` appears anywhere in it, and its single statementful exit is
`return (jlong) state`, so `released` is empty and `returnsState` is true by
the shape of the source, not by assumption. -/
structure init_run where
  attempted : List Res
  acquired : List Res
  released : List Res
  returnsState : Bool
deriving DecidableEq

/-- One run of `init` under failure environment `env` with
`maxDatagramsPerRead = n`: all acquisitions attempted in order, the
successful ones acquired, nothing released, normal return of the state
pointer. -/
def initRun (env : init_env) (n : Nat) : init_run :=
  { attempted := initAttempts n
  , acquired := (initAttempts n).filter env.ok
  , released := []
  , returnsState := true }

/-- Failure environment used for claim C3: `epoll_create1` fails, everything
else succeeds. -/
def env0 : init_env := ⟨-1, 4, fun _ => true⟩

/-- Failure environment used for claim C3's witness: the `malloc` of slot 0's
buffer fails, everything else succeeds. -/
def env1 : init_env := ⟨3, 4, fun a => !(a == Alloc.slotBuffer 0)⟩

/- ===== recvmmsg(2) ===== -/

/-- A UDP socket as `recvmmsg` sees it: the sizes of its queued datagrams
(oldest first), whether `O_NONBLOCK` is set on it, and a pending socket-level
error, if any (returned and cleared by the next receive call). -/
structure udp_socket where
  pending : List Nat
  nonblocking : Bool
  sockErr : Option Nat
deriving DecidableEq

/-- The slot update `recvmmsg` performs: the `i`-th drained datagram (size
`ds[i]`) lands in slot `i`, whose `msg_len` becomes the delivered byte count,
truncated to the slot capacity `iov_len`; slots beyond the drained count keep
their previous contents. -/
def fillSlots : List Nat → List mmsghdr → List mmsghdr
  | _, [] => []
  | [], ss => ss
  | d :: ds, s :: ss => { s with msg_len := min d s.iov_len } :: fillSlots ds ss

/-- Outcome of a receive call: `blocks` when the calling thread never
returns, otherwise the syscall's return value, `errno` when it is -1, the
slot array afterwards, and the socket afterwards. -/
inductive recv_result where
  | blocks
  | ret (n : Int) (errno : Nat) (slots : List mmsghdr) (sock : udp_socket)
deriving DecidableEq

/-- `recvmmsg(2)` with `flags = 0` and a NULL timeout on `vlen` header
slots: a pending socket error is returned as -1 with that errno; `vlen = 0`
returns 0.  The kernel loop calls the underlying receive once per slot with
the caller's flags — the code passes neither MSG_DONTWAIT nor
MSG_WAITFORONE, so on a blocking socket every iteration may block: with
nothing queued the call blocks at the first slot, and with `1 ≤ queued <
vlen` it drains the queue and then blocks at the next slot waiting for more
datagrams, returning only once all `vlen` slots are filled.  On a
nonblocking socket the iteration after the queue is drained fails with
EAGAIN: nothing queued returns -1/EAGAIN, otherwise `min(queued, vlen)`
datagrams are drained into the first slots and that count is returned.  A
blocking socket therefore returns (with `vlen`) only when `queued ≥ vlen`. -/
def recvmmsgSys (sock : udp_socket) (slots : List mmsghdr) (vlen : Nat) :
    recv_result :=
  match sock.sockErr with
  | some e => recv_result.ret (-1) e slots { sock with sockErr := none }
  | none =>
    if vlen = 0 then recv_result.ret 0 0 slots sock
    else if sock.pending.isEmpty then
      if sock.nonblocking then recv_result.ret (-1) EAGAIN slots sock
      else recv_result.blocks
    else if sock.nonblocking = false ∧ sock.pending.length < vlen then
      recv_result.blocks
    else
      let k := min sock.pending.length vlen
      recv_result.ret (k : Int) 0
        (fillSlots sock.pending (slots.take vlen) ++ slots.drop vlen)
        { sock with pending := sock.pending.drop k }

/-- `Java_org_jetlang_epoll_EPoll_recvmmsg`: calls
`recvmmsg(fd, state->udp_rcv, state->udp_rcv_len, 0, NULL)` and returns the
raw result; when the result is not 1 it printf-logs the result and errno on
the native side but alters no control flow and surfaces nothing further. -/
def recvmmsgJni (st : epoll_state) (sock : udp_socket) : recv_result :=
  recvmmsgSys sock st.udp_rcv st.udp_rcv_len

/-- The value the Java caller actually sees from
`Java_org_jetlang_epoll_EPoll_recvmmsg`: just the syscall's return value
(errno never crosses the boundary); `none` when the call blocks forever. -/
def recvmmsgJavaResult (st : epoll_state) (sock : udp_socket) : Option Int :=
  match recvmmsgJni st sock with
  | recv_result.blocks => none
  | recv_result.ret n _ _ _ => some n

/- ===== getReadBufferAddress ===== -/

/-- `Java_org_jetlang_epoll_EPoll_getReadBufferAddress`: returns
`state->udp_rcv[idx].msg_hdr.msg_iov->iov_base`.  The C code performs no
bounds check on `idx`; an index outside `[0, maxDatagramsPerRead)` indexes
memory outside the pool — modelled as `none`, while an in-range index yields
the slot's buffer address. -/
def getReadBufferAddress (st : epoll_state) (idx : Int) : Option Alloc :=
  if 0 ≤ idx then (st.udp_rcv.get? idx.toNat).map (fun m => m.iov_base)
  else none

/- ===== Theorems ===== -/

/-- Claim C1: the claim states that `freeNativeMemory` frees the backing
buffer and iovec of EVERY one of the `maxDatagrams` receive slots, leaving no
allocation of `init` live.  The code frees only slot 0's buffer and iovec
(`state->udp_rcv->` is `udp_rcv[0]`): already with `maxDatagramsPerRead = 2`,
slot 1's buffer and iovec are allocated by `init` but absent from the free
list, while both handles are closed and the arrays and state block are freed.
This refutes the claim on the code and exhibits the leak. -/
theorem C1_destroy_leaks_slots :
    freeNativeMemoryCloses (initState 4 2 8 3 5) = [3, 5] ∧
    freeNativeMemoryFrees (initState 4 2 8 3 5)
      = [Alloc.eventsArray, Alloc.slotBuffer 0, Alloc.slotIov 0,
         Alloc.udpRcvArray, Alloc.stateBlock] ∧
    Alloc.slotBuffer 1 ∈ initAllocs 2 ∧
    Alloc.slotBuffer 1 ∉ freeNativeMemoryFrees (initState 4 2 8 3 5) ∧
    Alloc.slotIov 1 ∈ initAllocs 2 ∧
    Alloc.slotIov 1 ∉ freeNativeMemoryFrees (initState 4 2 8 3 5) := by
  decide

/-- Claim C2, counterexample: the claim states that a failing interest-set
update is reported to the caller as an error distinct from success.  On the
world after `init` (only the eventfd registered), a MOD of the unknown
descriptor 7 fails in the kernel with ENOENT while an ADD of the same
descriptor succeeds — yet `ctl` returns the same value (the event
allocation's address, here 1000) in both runs, so the caller cannot tell the
failing call from the succeeding one. -/
theorem C2_failure_indistinct :
    (ctl (initWorld 1 1 8 3 4 []) EPOLL_CTL_MOD EPOLLIN 7 5 1000).os_result
      = -1 ∧
    (ctl (initWorld 1 1 8 3 4 []) EPOLL_CTL_MOD EPOLLIN 7 5 1000).os_errno
      = ENOENT ∧
    (ctl (initWorld 1 1 8 3 4 []) EPOLL_CTL_ADD EPOLLIN 7 5 1000).os_result
      = 0 ∧
    (ctl (initWorld 1 1 8 3 4 []) EPOLL_CTL_MOD EPOLLIN 7 5 1000).ret
      = (ctl (initWorld 1 1 8 3 4 []) EPOLL_CTL_ADD EPOLLIN 7 5 1000).ret := by
  decide

/-- Claim C2, amended: every `ctl` call returns the address of the freshly
allocated event record, unconditionally; the `epoll_ctl` result and errno are
computed by the kernel but discarded by the code, so a failure of the
interest-set update is not distinguishable from success in the value the
caller receives. -/
theorem C2_ctl_returns_pointer (w : world) (op eventTypes : Nat) (fd : Int)
    (idx : Nat) (addr : Int) :
    (ctl w op eventTypes fd idx addr).ret = addr ∧
    (ctl w op eventTypes fd idx addr).os_result
      = (epoll_ctl w.interest op fd ⟨eventTypes, idx⟩).res ∧
    (ctl w op eventTypes fd idx addr).os_errno
      = (epoll_ctl w.interest op fd ⟨eventTypes, idx⟩).errno :=
  ⟨rfl, rfl, rfl⟩

/-- Claim C3, counterexample: the claim states that a failed underlying
acquisition makes `init` propagate the failure after releasing everything
already acquired.  Under `env0` — `epoll_create1` fails — `init` still
returns the state pointer as on success, still acquires every later resource
(slot 0's buffer among them), and releases nothing. -/
theorem C3_no_unwind_cex :
    env0.ok Res.epollFd = false ∧
    (initRun env0 1).returnsState = true ∧
    Res.heap (Alloc.slotBuffer 0) ∈ (initRun env0 1).acquired ∧
    (initRun env0 1).released = [] := by
  decide

/-- Claim C3, amended: when any underlying allocation or handle creation
fails during `init`, `init` neither detects nor propagates it: the failed
resource is simply not acquired, every other acquisition is still attempted,
nothing is released, and `init` returns the state-block pointer exactly as on
success. -/
theorem C3_no_unwind (env : init_env) (n : Nat) (r : Res)
    (hr : r ∈ initAttempts n) (hf : env.ok r = false) :
    (initRun env n).returnsState = true ∧
    (initRun env n).released = [] ∧
    r ∉ (initRun env n).acquired ∧
    (initRun env n).attempted = initAttempts n := by
  refine ⟨rfl, rfl, ?_, rfl⟩
  intro hmem
  have hmem2 : r ∈ (initAttempts n).filter env.ok := hmem
  have h2 := (List.mem_filter.mp hmem2).2
  rw [hf] at h2
  exact Bool.noConfusion h2

/-- Witness for C3: under `env1` (the `malloc` of slot 0's buffer fails),
instantiating `C3_no_unwind` at that failed resource. -/
theorem C3_no_unwind_witness :
    (Res.heap (Alloc.slotBuffer 0) ∈ initAttempts 1 ∧
      env1.ok (Res.heap (Alloc.slotBuffer 0)) = false) ∧
    ((initRun env1 1).returnsState = true ∧
      (initRun env1 1).released = [] ∧
      Res.heap (Alloc.slotBuffer 0) ∉ (initRun env1 1).acquired ∧
      (initRun env1 1).attempted = initAttempts 1) :=
  ⟨⟨by decide, by decide⟩,
    C3_no_unwind env1 1 (Res.heap (Alloc.slotBuffer 0)) (by decide) (by decide)⟩

/-- Claim C4: the claim states that every `interrupt` call records a pending
wake-up and makes `wait` return with the reserved tag.  The C code writes an
UNINITIALISED `uint64_t d` to the eventfd; its value is indeterminate.  When
that value happens to be 0 the write succeeds but adds nothing to the
counter: on a fresh state the counter stays 0, and a subsequent `select` with
timeout 0 returns 0 with no reserved-tag record — no wake-up was recorded.
(Had the code written 1, as intended, the same `select` would return 1 with
the reserved-tag record `⟨25, 0⟩`, as the last conjunct shows.) -/
theorem C4_uninitialized_signal :
    interrupt 0 0 = 0 ∧
    eventfdWrite 0 0 = (8, 0) ∧
    select { initWorld 1 1 8 3 4 [] with efdCounter := interrupt 0 0 } 0
      = some (0, [(⟨0, 0⟩ : epoll_event)]) ∧
    select { initWorld 1 1 8 3 4 [] with efdCounter := interrupt 0 1 } 0
      = some (1, [(⟨25, 0⟩ : epoll_event)]) := by
  decide

theorem fillSlots_getD_lt (ds : List Nat) (ss : List mmsghdr) (i : Nat)
    (h1 : i < ds.length) (h2 : i < ss.length) :
    (fillSlots ds ss).getD i default
      = { ss.getD i default with
          msg_len := min (ds.getD i 0) ((ss.getD i default).iov_len) } := by
  induction ds generalizing ss i with
  | nil => simp at h1
  | cons d ds ih =>
    cases ss with
    | nil => simp at h2
    | cons s ss =>
      cases i with
      | zero => rfl
      | succ j =>
        simp only [fillSlots, List.getD_cons_succ]
        exact ih ss j (by simpa using h1) (by simpa using h2)

theorem fillSlots_getD_ge (ds : List Nat) (ss : List mmsghdr) (i : Nat)
    (h : ds.length ≤ i) :
    (fillSlots ds ss).getD i default = ss.getD i default := by
  induction ds generalizing ss i with
  | nil => cases ss <;> rfl
  | cons d ds ih =>
    cases ss with
    | nil => rfl
    | cons s ss =>
      cases i with
      | zero => simp at h
      | succ j =>
        simp only [fillSlots, List.getD_cons_succ]
        exact ih ss j (by simpa using h)

/-- Claim C5, counterexample: the claim states that `recvmmsg` on a socket
with no pending datagrams returns immediately with 0.  The code calls
`recvmmsg` with `flags = 0` (no MSG_DONTWAIT): on a nonblocking socket with
nothing queued the call returns -1 with errno EAGAIN — the Java caller sees
-1, not 0 — and on a blocking socket it does not return at all. -/
theorem C5_empty_not_zero :
    recvmmsgJni (initState 1 2 8 3 4) ⟨[], true, none⟩
      = recv_result.ret (-1) EAGAIN (initState 1 2 8 3 4).udp_rcv
          ⟨[], true, none⟩ ∧
    recvmmsgJavaResult (initState 1 2 8 3 4) ⟨[], true, none⟩ = some (-1) ∧
    recvmmsgJni (initState 1 2 8 3 4) ⟨[], false, none⟩
      = recv_result.blocks ∧
    recvmmsgJavaResult (initState 1 2 8 3 4) ⟨[], false, none⟩ = none := by
  decide

/-- Claim C5, amended: `recvmmsg` with no pending datagrams never returns 0:
on a nonblocking socket it returns -1 with errno EAGAIN, on a blocking socket
it blocks; a pending socket-level error is likewise returned as -1 — distinct
from 0 and from every datagram count — but only the raw -1 crosses to the
Java caller: the errno is printf-logged natively and then dropped. -/
theorem C5_empty_recv (st : epoll_state) (sock : udp_socket)
    (hv : 1 ≤ st.udp_rcv_len) (hp : sock.pending = []) :
    (sock.sockErr = none → sock.nonblocking = true →
      recvmmsgJni st sock = recv_result.ret (-1) EAGAIN st.udp_rcv sock ∧
      recvmmsgJavaResult st sock = some (-1)) ∧
    (sock.sockErr = none → sock.nonblocking = false →
      recvmmsgJni st sock = recv_result.blocks ∧
      recvmmsgJavaResult st sock = none) ∧
    (sock.sockErr ≠ none →
      recvmmsgJni st sock
        = recv_result.ret (-1) (sock.sockErr.getD 0) st.udp_rcv
            { sock with sockErr := none } ∧
      recvmmsgJavaResult st sock = some (-1)) := by
  obtain ⟨p, nb, se⟩ := sock
  simp only at hp
  subst hp
  have hv2 : ¬ st.udp_rcv_len = 0 := by omega
  refine ⟨?_, ?_, ?_⟩
  · intro he hnb
    simp only at he hnb
    subst he; subst hnb
    simp [recvmmsgJni, recvmmsgJavaResult, recvmmsgSys, hv2]
  · intro he hnb
    simp only at he hnb
    subst he; subst hnb
    simp [recvmmsgJni, recvmmsgJavaResult, recvmmsgSys, hv2]
  · intro he
    cases se with
    | none => exact absurd rfl he
    | some e =>
      simp [recvmmsgJni, recvmmsgJavaResult, recvmmsgSys]

/-- Witness for C5: instantiating `C5_empty_recv` on the state of
`init(1, 1, 8)` and a nonblocking socket with an empty queue. -/
theorem C5_empty_recv_witness :
    (1 ≤ (initState 1 1 8 3 4).udp_rcv_len ∧
      (⟨[], true, none⟩ : udp_socket).pending = []) ∧
    (((⟨[], true, none⟩ : udp_socket).sockErr = none →
        (⟨[], true, none⟩ : udp_socket).nonblocking = true →
        recvmmsgJni (initState 1 1 8 3 4) ⟨[], true, none⟩
          = recv_result.ret (-1) EAGAIN (initState 1 1 8 3 4).udp_rcv
              ⟨[], true, none⟩ ∧
        recvmmsgJavaResult (initState 1 1 8 3 4) ⟨[], true, none⟩
          = some (-1)) ∧
      ((⟨[], true, none⟩ : udp_socket).sockErr = none →
        (⟨[], true, none⟩ : udp_socket).nonblocking = false →
        recvmmsgJni (initState 1 1 8 3 4) ⟨[], true, none⟩
          = recv_result.blocks ∧
        recvmmsgJavaResult (initState 1 1 8 3 4) ⟨[], true, none⟩ = none) ∧
      ((⟨[], true, none⟩ : udp_socket).sockErr ≠ none →
        recvmmsgJni (initState 1 1 8 3 4) ⟨[], true, none⟩
          = recv_result.ret (-1)
              ((⟨[], true, none⟩ : udp_socket).sockErr.getD 0)
              (initState 1 1 8 3 4).udp_rcv
              { (⟨[], true, none⟩ : udp_socket) with sockErr := none } ∧
        recvmmsgJavaResult (initState 1 1 8 3 4) ⟨[], true, none⟩
          = some (-1))) :=
  ⟨⟨by decide, by decide⟩,
    C5_empty_recv (initState 1 1 8 3 4) ⟨[], true, none⟩ (by decide) (by decide)⟩

/-- Claim C6, counterexample: the claim quantifies over every socket with
`K ≤ maxDatagrams` pending datagrams and states the call then returns `K`.
Two failures with `maxDatagrams = 3`: with `K = 0` the call does not return
0 — a nonblocking socket gets -1 (EAGAIN) and a blocking socket never
returns; and with `K = 1` on a BLOCKING socket the call does not return 1 —
`flags = 0` and the NULL timeout make it drain the one datagram and then
block waiting to fill the remaining slots. -/
theorem C6_zero_pending_cex :
    recvmmsgJavaResult (initState 1 3 8 3 4) ⟨[], true, none⟩ = some (-1) ∧
    recvmmsgJni (initState 1 3 8 3 4) ⟨[], false, none⟩
      = recv_result.blocks ∧
    recvmmsgJni (initState 1 3 8 3 4) ⟨[5], false, none⟩
      = recv_result.blocks := by
  decide

/-- Claim C6, amended: for every NONBLOCKING socket with exactly `K` pending
datagrams where `1 ≤ K ≤ maxDatagrams` (and no pending socket error),
`recvmmsg` returns `K`, fills slots `0 .. K-1` in pool order — slot `i`'s
`msg_len` becomes the `i`-th datagram's byte count truncated to the slot
capacity — leaves every slot with index `≥ K` exactly as it was, and never
returns more than `maxDatagrams`.  The nonblocking restriction is forced by
the code: it passes `flags = 0` and a NULL timeout, so a blocking socket
with `K < maxDatagrams` drains its queue and then blocks waiting for more
instead of returning `K` (and with `K = 0` no socket returns 0). -/
theorem C6_batch_fills_prefix (st : epoll_state) (sock : udp_socket) (i : Nat)
    (hwf : st.udp_rcv.length = st.udp_rcv_len)
    (hk1 : 1 ≤ sock.pending.length)
    (hk2 : sock.pending.length ≤ st.udp_rcv_len)
    (he : sock.sockErr = none)
    (hnb : sock.nonblocking = true) :
    recvmmsgJni st sock
      = recv_result.ret (sock.pending.length : Int) 0
          (fillSlots sock.pending st.udp_rcv) { sock with pending := [] } ∧
    sock.pending.length ≤ st.udp_rcv_len ∧
    (i < sock.pending.length →
      (fillSlots sock.pending st.udp_rcv).getD i default
        = { st.udp_rcv.getD i default with
            msg_len := min (sock.pending.getD i 0)
                        ((st.udp_rcv.getD i default).iov_len) }) ∧
    (sock.pending.length ≤ i →
      (fillSlots sock.pending st.udp_rcv).getD i default
        = st.udp_rcv.getD i default) := by
  refine ⟨?_, hk2, ?_, ?_⟩
  · have hv2 : ¬ st.udp_rcv_len = 0 := by omega
    have hne : sock.pending ≠ [] := by
      intro hnil; rw [hnil] at hk1; simp at hk1
    have hie : sock.pending.isEmpty = false := by
      cases hh : sock.pending with
      | nil => exact absurd hh hne
      | cons a as => rfl
    simp only [recvmmsgJni, recvmmsgSys, he]
    rw [if_neg hv2, hie]
    simp only [Bool.false_eq_true, if_false]
    rw [if_neg (by simp [hnb] :
      ¬ (sock.nonblocking = false ∧ sock.pending.length < st.udp_rcv_len))]
    rw [Nat.min_eq_left hk2, List.drop_length, ← hwf, List.take_length,
      List.drop_length, List.append_nil]
  · intro hi
    exact fillSlots_getD_lt sock.pending st.udp_rcv i hi (by omega)
  · intro hi
    exact fillSlots_getD_ge sock.pending st.udp_rcv i hi

/-- Witness for C6: instantiating `C6_batch_fills_prefix` on the state of
`init(1, 2, 8)` and a socket with one pending 5-byte datagram. -/
theorem C6_batch_fills_prefix_witness :
    ((initState 1 2 8 3 4).udp_rcv.length = (initState 1 2 8 3 4).udp_rcv_len ∧
      1 ≤ (⟨[5], true, none⟩ : udp_socket).pending.length ∧
      (⟨[5], true, none⟩ : udp_socket).pending.length
        ≤ (initState 1 2 8 3 4).udp_rcv_len ∧
      (⟨[5], true, none⟩ : udp_socket).sockErr = none ∧
      (⟨[5], true, none⟩ : udp_socket).nonblocking = true) ∧
    (recvmmsgJni (initState 1 2 8 3 4) ⟨[5], true, none⟩
      = recv_result.ret ((⟨[5], true, none⟩ : udp_socket).pending.length : Int)
          0 (fillSlots (⟨[5], true, none⟩ : udp_socket).pending
              (initState 1 2 8 3 4).udp_rcv)
          { (⟨[5], true, none⟩ : udp_socket) with pending := [] } ∧
      (⟨[5], true, none⟩ : udp_socket).pending.length
        ≤ (initState 1 2 8 3 4).udp_rcv_len ∧
      (0 < (⟨[5], true, none⟩ : udp_socket).pending.length →
        (fillSlots (⟨[5], true, none⟩ : udp_socket).pending
            (initState 1 2 8 3 4).udp_rcv).getD 0 default
          = { (initState 1 2 8 3 4).udp_rcv.getD 0 default with
              msg_len := min ((⟨[5], true, none⟩ : udp_socket).pending.getD 0 0)
                          (((initState 1 2 8 3 4).udp_rcv.getD 0
                              default).iov_len) }) ∧
      ((⟨[5], true, none⟩ : udp_socket).pending.length ≤ 0 →
        (fillSlots (⟨[5], true, none⟩ : udp_socket).pending
            (initState 1 2 8 3 4).udp_rcv).getD 0 default
          = (initState 1 2 8 3 4).udp_rcv.getD 0 default)) :=
  ⟨⟨by decide, by decide, by decide, by decide, by decide⟩,
    C6_batch_fills_prefix (initState 1 2 8 3 4) ⟨[5], true, none⟩ 0
      (by decide) (by decide) (by decide) (by decide) (by decide)⟩

/-- Claim C7, counterexample: the claim quantifies over every state handle,
including one created with `maxSelectedEvents = 0`.  On such a state
`epoll_wait` fails with EINVAL and `select` returns -1, although zero records
were written and no timeout semantics applies — so `select` does not "return
exactly the number of records written" on every state. -/
theorem C7_zero_maxevents_cex :
    select (initWorld 0 1 8 3 4 []) 5 = some (-1, []) ∧
    (initWorld 0 1 8 3 4 []).st.events = [] := by
  decide

/-- Claim C7, amended: for every state with `maxEvents ≥ 1` and every
timeout, `select` either blocks forever (only when nothing is ready and the
timeout is negative) or returns: with nothing ready it returns 0 leaving the
event buffer untouched, otherwise it returns the number of ready records
written, writing them from index 0 and leaving the rest of the buffer as it
was; the count written never exceeds `maxEvents` and is at least 1 when
something is ready, so a returned 0 happens exactly on the timeout path.
(A state created with `maxEvents = 0` instead makes `epoll_wait` fail with
EINVAL, returning -1.) -/
theorem C7_wait_bounded (w : world) (t : Int) (hme : 1 ≤ w.st.max_events) :
    select w t =
      (if (readyEvents w.interest (fdReady w)).isEmpty then
        (if t < 0 then none else some (0, w.st.events))
       else
        some ((((readyEvents w.interest (fdReady w)).take
            w.st.max_events).length : Int),
          ((readyEvents w.interest (fdReady w)).take w.st.max_events)
            ++ w.st.events.drop
                ((readyEvents w.interest (fdReady w)).take
                    w.st.max_events).length)) ∧
    ((readyEvents w.interest (fdReady w)).take w.st.max_events).length
      ≤ w.st.max_events ∧
    ((readyEvents w.interest (fdReady w)).isEmpty = false →
      1 ≤ ((readyEvents w.interest (fdReady w)).take
            w.st.max_events).length) := by
  have hme2 : ¬ w.st.max_events = 0 := by omega
  refine ⟨?_, ?_, ?_⟩
  · simp only [select, epoll_wait]
    rw [if_neg hme2]
  · rw [List.length_take]
    exact Nat.min_le_left _ _
  · intro hne
    rw [List.length_take]
    have h1 : 1 ≤ (readyEvents w.interest (fdReady w)).length := by
      cases hh : readyEvents w.interest (fdReady w) with
      | nil => rw [hh] at hne; simp at hne
      | cons a l => simp
    omega

/-- Witness for C7: instantiating `C7_wait_bounded` on the world right after
`init(2, 1, 8)` — no user registration, eventfd counter 0 — with timeout 0:
nothing is ready, so `select` returns 0 without blocking, the buffer
untouched. -/
theorem C7_wait_bounded_witness :
    (1 ≤ (initWorld 2 1 8 3 4 []).st.max_events) ∧
    (select (initWorld 2 1 8 3 4 []) 0 =
      (if (readyEvents (initWorld 2 1 8 3 4 []).interest
            (fdReady (initWorld 2 1 8 3 4 []))).isEmpty then
        (if (0 : Int) < 0 then none
         else some (0, (initWorld 2 1 8 3 4 []).st.events))
       else
        some ((((readyEvents (initWorld 2 1 8 3 4 []).interest
              (fdReady (initWorld 2 1 8 3 4 []))).take
              (initWorld 2 1 8 3 4 []).st.max_events).length : Int),
          ((readyEvents (initWorld 2 1 8 3 4 []).interest
              (fdReady (initWorld 2 1 8 3 4 []))).take
              (initWorld 2 1 8 3 4 []).st.max_events)
            ++ (initWorld 2 1 8 3 4 []).st.events.drop
                ((readyEvents (initWorld 2 1 8 3 4 []).interest
                    (fdReady (initWorld 2 1 8 3 4 []))).take
                    (initWorld 2 1 8 3 4 []).st.max_events).length)) ∧
      ((readyEvents (initWorld 2 1 8 3 4 []).interest
          (fdReady (initWorld 2 1 8 3 4 []))).take
          (initWorld 2 1 8 3 4 []).st.max_events).length
        ≤ (initWorld 2 1 8 3 4 []).st.max_events ∧
      ((readyEvents (initWorld 2 1 8 3 4 []).interest
          (fdReady (initWorld 2 1 8 3 4 []))).isEmpty = false →
        1 ≤ ((readyEvents (initWorld 2 1 8 3 4 []).interest
              (fdReady (initWorld 2 1 8 3 4 []))).take
              (initWorld 2 1 8 3 4 []).st.max_events).length)) :=
  ⟨by decide, C7_wait_bounded (initWorld 2 1 8 3 4 []) 0 (by decide)⟩

theorem clearInterrupt_eq_zero (c : Nat) : clearInterrupt c = 0 := by
  by_cases h : c = 0 <;> simp [clearInterrupt, eventfdRead, h]

theorem epoll_wait_empty (I : List (Int × epoll_event)) (rd : Int → Bool)
    (buf : List epoll_event) (me : Nat) (t : Int)
    (h : readyEvents I rd = []) (hme : 1 ≤ me) :
    epoll_wait I rd buf me t = if t < 0 then none else some (0, buf) := by
  have hme2 : ¬ me = 0 := by omega
  simp [epoll_wait, h, hme2]

/-- Claim C8: for every `n ≥ 1` signals — each writing an arbitrary (in the
source: indeterminate) value — followed by one `clearInterrupt`, the eventfd
counter is 0: the read of a non-semaphore eventfd consumes the WHOLE counter,
so one clear consumes all accumulated signals.  The wake channel is then not
readable, and a subsequent `select` on a world with no ready user descriptor
returns 0 once a timeout `≥ 0` elapses — and blocks on a negative timeout —
instead of returning immediately with the reserved tag. -/
theorem C8_signals_then_clear (w : world) (ds : List Nat) (ctr : Nat) (t : Int)
    (hds : ds ≠ []) (hrf : w.readyFds = []) (hme : 1 ≤ w.st.max_events) :
    clearInterrupt (List.foldl interrupt ctr ds) = 0 ∧
    efdReadable (clearInterrupt (List.foldl interrupt ctr ds)) = false ∧
    select { w with efdCounter := clearInterrupt (List.foldl interrupt ctr ds) } t
      = (if t < 0 then none else some (0, w.st.events)) := by
  have h0 := clearInterrupt_eq_zero (List.foldl interrupt ctr ds)
  refine ⟨h0, by rw [h0]; rfl, ?_⟩
  rw [h0]
  have hready : readyEvents ({ w with efdCounter := 0 } : world).interest
      (fdReady { w with efdCounter := 0 }) = [] := by
    unfold readyEvents
    rw [List.map_eq_nil_iff, List.filter_eq_nil_iff]
    intro p hp
    simp [fdReady, efdReadable, hrf]
  exact epoll_wait_empty _ _ _ _ _ hready hme

/-- Witness for C8: three signals (values 7, 0, 7) then one clear on the
world right after `init(1, 1, 8)`, timeout 0. -/
theorem C8_signals_then_clear_witness :
    (([7, 0, 7] : List Nat) ≠ [] ∧ (initWorld 1 1 8 3 4 []).readyFds = [] ∧
      1 ≤ (initWorld 1 1 8 3 4 []).st.max_events) ∧
    (clearInterrupt (List.foldl interrupt 0 [7, 0, 7]) = 0 ∧
      efdReadable (clearInterrupt (List.foldl interrupt 0 [7, 0, 7])) = false ∧
      select { initWorld 1 1 8 3 4 [] with
          efdCounter := clearInterrupt (List.foldl interrupt 0 [7, 0, 7]) } 0
        = (if (0 : Int) < 0 then none
           else some (0, (initWorld 1 1 8 3 4 []).st.events))) :=
  ⟨⟨by decide, by decide, by decide⟩,
    C8_signals_then_clear (initWorld 1 1 8 3 4 []) [7, 0, 7] 0 0 (by decide)
      (by decide) (by decide)⟩

/-- Claim C9, counterexample: the claim states that the reserved tag 0 of the
wake channel is distinct from the tag of every user registration made through
`ctl`.  After `init` (eventfd 4 registered with tag 0), a `ctl` ADD of user
descriptor 7 with caller index 0 SUCCEEDS and puts `(7, ⟨EPOLLIN, 0⟩)` into
the interest set — a user registration carrying the reserved tag: the code
never excludes 0 from the user tag space. -/
theorem C9_reserved_tag_collision :
    (initWorld 1 1 8 3 4 []).interest = [(4, ⟨25, 0⟩)] ∧
    (ctl (initWorld 1 1 8 3 4 []) EPOLL_CTL_ADD EPOLLIN 7 0 1000).os_result
      = 0 ∧
    (7, (⟨EPOLLIN, 0⟩ : epoll_event))
      ∈ (ctl (initWorld 1 1 8 3 4 []) EPOLL_CTL_ADD EPOLLIN 7 0 1000).w.interest
    := by
  decide

/-- Claim C9, amended: the wake channel descriptor is registered in the
interest set exactly once, at creation, with the reserved tag 0 (after `init`
the interest set is exactly the one wake entry); but a user registration made
through `ctl` carries whatever index the caller supplies as its tag — the
code does not keep user tags distinct from the reserved tag 0. -/
theorem C9_wake_registered_once (maxSelectedEvents maxDatagramsPerRead
      readBufferBytes : Nat) (epollFd efdFd : Int) (ready : List Int)
    (w : world) (eventTypes : Nat) (fd : Int) (idx : Nat) (addr : Int)
    (hefd : 0 ≤ efdFd) (hfd : 0 ≤ fd)
    (hnew : w.interest.any (fun p => p.1 == fd) = false) :
    (initWorld maxSelectedEvents maxDatagramsPerRead readBufferBytes
        epollFd efdFd ready).interest = [(efdFd, efdEvent)] ∧
    efdEvent.u32 = 0 ∧
    (ctl w EPOLL_CTL_ADD eventTypes fd idx addr).w.interest
      = w.interest ++ [(fd, ⟨eventTypes, idx⟩)] := by
  refine ⟨?_, rfl, ?_⟩
  · simp only [initWorld, epoll_ctl]
    rw [if_neg (by omega : ¬ efdFd < 0)]
    rfl
  · simp only [ctl, epoll_ctl]
    rw [if_neg (by omega : ¬ fd < 0)]
    simp [hnew]

/-- Witness for C9: `init(1, 1, 8)` with eventfd 4, then a user ADD of
descriptor 7 with caller index 0 — the user tag equals the reserved tag. -/
theorem C9_wake_registered_once_witness :
    (0 ≤ (4 : Int) ∧ 0 ≤ (7 : Int) ∧
      (initWorld 1 1 8 3 4 []).interest.any (fun p => p.1 == 7) = false) ∧
    ((initWorld 1 1 8 3 4 []).interest = [(4, efdEvent)] ∧
      efdEvent.u32 = 0 ∧
      (ctl (initWorld 1 1 8 3 4 []) EPOLL_CTL_ADD EPOLLIN 7 0 1000).w.interest
        = (initWorld 1 1 8 3 4 []).interest ++ [(7, ⟨EPOLLIN, 0⟩)]) :=
  ⟨⟨by decide, by decide, by decide⟩,
    C9_wake_registered_once 1 1 8 3 4 [] (initWorld 1 1 8 3 4 []) EPOLLIN 7 0
      1000 (by decide) (by decide) (by decide)⟩

/-- Claim C10: `getReadBufferAddress` has no bounds check; exactly under the
precondition `0 ≤ idx < maxDatagramsPerRead` does the lookup stay inside the
pool, returning slot `idx`'s buffer address as fixed at creation
(`Alloc.slotBuffer idx`); for every index outside that range — negative or
`≥ maxDatagramsPerRead` — the access leaves the pool (modelled as `none`). -/
theorem C10_buffer_address_bounds (maxSelectedEvents maxDatagramsPerRead
      readBufferBytes : Nat) (epollFd efdFd : Int) (idx : Int) :
    (0 ≤ idx ∧ idx < (maxDatagramsPerRead : Int) →
      getReadBufferAddress
          (initState maxSelectedEvents maxDatagramsPerRead readBufferBytes
            epollFd efdFd) idx
        = some (Alloc.slotBuffer idx.toNat)) ∧
    (¬ (0 ≤ idx ∧ idx < (maxDatagramsPerRead : Int)) →
      getReadBufferAddress
          (initState maxSelectedEvents maxDatagramsPerRead readBufferBytes
            epollFd efdFd) idx
        = none) := by
  constructor
  · rintro ⟨h0, hlt⟩
    have hn : idx.toNat < maxDatagramsPerRead := by omega
    simp only [getReadBufferAddress, initState, if_pos h0]
    rw [List.get?_map, List.get?_range hn]
    rfl
  · intro h
    simp only [getReadBufferAddress, initState]
    by_cases h0 : 0 ≤ idx
    · have hn : maxDatagramsPerRead ≤ idx.toNat := by omega
      rw [if_pos h0, List.get?_map, List.get?_eq_none.mpr]
      · rfl
      · simpa using hn
    · rw [if_neg h0]

/-- Witness for C10: on the state of `init(1, 2, 8)`, index 1 is in range and
yields slot 1's buffer address; indices -1 and 2 are out of range. -/
theorem C10_buffer_address_bounds_witness :
    getReadBufferAddress (initState 1 2 8 3 4) 1 = some (Alloc.slotBuffer 1) ∧
    getReadBufferAddress (initState 1 2 8 3 4) (-1) = none ∧
    getReadBufferAddress (initState 1 2 8 3 4) 2 = none :=
  ⟨(C10_buffer_address_bounds 1 2 8 3 4 1).1 (by decide),
   (C10_buffer_address_bounds 1 2 8 3 4 (-1)).2 (by decide),
   (C10_buffer_address_bounds 1 2 8 3 4 2).2 (by decide)⟩
